import Mathlib

/-!
Verification of the auth/cache core of the odoo-api-gateway repository.

The Python source is shallowly embedded: pure request handlers become Lean
functions, the Redis cache store becomes an explicit state value threaded
through the handlers, Python exceptions become an `Except` error channel,
and machine integers are modelled by `Nat` (no overflow is relevant here:
ids, timestamps and TTLs are small non-negative integers).

Python string interpolation of integers (`f"...{n}..."`, `json.dumps`)
is embedded via `natStr`, a decimal renderer written with explicit fuel so
that it reduces inside the kernel; it is proved equal to rendering
`Nat.digits 10` and injective.
-/

/-! ## Decimal rendering of naturals (Python `str(n)` / `json.dumps(n)`) -/

/-- The character for a single decimal digit, `'0'` for 0 through `'9'` for 9. -/
def digitChr (d : Nat) : Char := Char.ofNat (48 + d)

/-- Big-endian decimal digit characters of `n`, with explicit fuel so the
definition is structurally recursive (the fuel is never exhausted when it
starts at `n` itself). -/
def natToChars : Nat → Nat → List Char
  | 0, _ => []
  | _ + 1, 0 => []
  | fuel + 1, n + 1 => natToChars fuel ((n + 1) / 10) ++ [digitChr ((n + 1) % 10)]

/-- Decimal rendering of a natural number, exactly as Python `str` renders a
non-negative `int`. -/
def natStr (n : Nat) : String :=
  if n = 0 then "0" else String.mk (natToChars n n)

theorem natToChars_eq_digits :
    ∀ (fuel n : Nat), n ≤ fuel →
      natToChars fuel n = ((Nat.digits 10 n).reverse).map digitChr := by
  intro fuel
  induction fuel with
  | zero =>
    intro n hn
    interval_cases n
    simp [natToChars]
  | succ f ih =>
    intro n hn
    match n with
    | 0 => simp [natToChars]
    | m + 1 =>
      have hdiv : (m + 1) / 10 ≤ f := by
        have h1 : (m + 1) / 10 < m + 1 := Nat.div_lt_self (Nat.succ_pos m) (by norm_num)
        omega
      have hd := Nat.digits_def' (b := 10) (by norm_num) (Nat.succ_pos m)
      rw [natToChars, ih _ hdiv, hd]
      simp

/-- Folding decimal digits back into a number; left inverse of rendering. -/
def parseChars (l : List Char) : Nat :=
  l.foldl (fun a c => 10 * a + (c.toNat - 48)) 0

theorem digitChr_toNat : ∀ d : Nat, d < 10 → (digitChr d).toNat = 48 + d := by decide

theorem foldl_digits (ds : List Nat) (hds : ∀ d ∈ ds, d < 10) :
    ∀ k : Nat,
      (((ds.reverse).map digitChr).foldl (fun a c => 10 * a + (c.toNat - 48)) k)
        = k * 10 ^ ds.length + Nat.ofDigits 10 ds := by
  induction ds with
  | nil => intro k; simp [Nat.ofDigits_nil]
  | cons d tl ih =>
    intro k
    have hd : d < 10 := hds d (List.mem_cons_self d tl)
    have htl : ∀ x ∈ tl, x < 10 := fun x hx => hds x (List.mem_cons_of_mem d hx)
    rw [List.reverse_cons, List.map_append, List.foldl_append, ih htl k]
    simp only [List.map_cons, List.map_nil, List.foldl_cons, List.foldl_nil,
      digitChr_toNat d hd, Nat.ofDigits_cons, List.length_cons]
    rw [Nat.add_sub_cancel_left]
    ring

theorem parseChars_natStr (n : Nat) : parseChars (natStr n).data = n := by
  by_cases h : n = 0
  · subst h; decide
  · have hpos : 0 < n := Nat.pos_of_ne_zero h
    have hdata : (natStr n).data = natToChars n n := by
      simp [natStr, h]
    rw [parseChars, hdata, natToChars_eq_digits n n le_rfl,
      foldl_digits (Nat.digits 10 n) (fun d hd => Nat.digits_lt_base (by norm_num) hd) 0]
    simp [Nat.ofDigits_digits]

theorem natStr_data_inj {n m : Nat} (h : (natStr n).data = (natStr m).data) : n = m := by
  have := congrArg parseChars h
  rwa [parseChars_natStr, parseChars_natStr] at this

theorem natStr_inj {n m : Nat} (h : natStr n = natStr m) : n = m :=
  natStr_data_inj (congrArg String.data h)

/-- Python `str` of an `Optional[int]`: `None` renders as `"None"`. -/
def optNatStr : Option Nat → String
  | none => "None"
  | some n => natStr n

/-- Python `str` of an `Optional[str]`: `None` renders as `"None"`. -/
def optStrStr : Option String → String
  | none => "None"
  | some s => s

/-! ## Glob matching (Redis `KEYS pattern`, used by `clear_cache_pattern`)

Only the `*` wildcard occurs in the repository's patterns, so the matcher
implements literal characters plus `*`.  Fuel keeps the recursion structural;
`pat.length + s.length + 1` suffices because every recursive call shrinks
`pat.length + s.length`. -/

def globMatchAux : Nat → List Char → List Char → Bool
  | 0, _, _ => false
  | _ + 1, [], s => s.isEmpty
  | fuel + 1, p :: ps, s =>
    if p = '*' then
      match s with
      | [] => globMatchAux fuel ps []
      | c :: cs => globMatchAux fuel ps (c :: cs) || globMatchAux fuel (p :: ps) cs
    else
      match s with
      | [] => false
      | c :: cs => (p = c) && globMatchAux fuel ps cs

/-- Redis-style glob match of `pat` against key `s` (only `*` and literals). -/
def globMatch (pat s : String) : Bool :=
  globMatchAux (pat.data.length + s.data.length + 1) pat.data s.data

/-! ## Cached values and the cache store

`src/app/core/cache.py` builds one module-wide `redis_client`.  A cached value
is the JSON document Redis holds for a key; serialisation round-trips
(`json.dumps` then `json.loads`) are embedded as the identity, so values are
carried as a small inductive rather than as raw JSON text. -/

inductive Val where
  | vStr : String → Val
  | vNat : Nat → Val
  deriving DecidableEq, Repr

/-- One Redis database: key, value, remaining TTL in seconds. -/
abbrev CacheState : Type := List (String × Val × Nat)

def lookupKey : CacheState → String → Option (Val × Nat)
  | [], _ => none
  | e :: rest, k => if e.1 = k then some e.2 else lookupKey rest k

/-- Redis `SETEX`: (re)bind a key with a value and a TTL.  Overwriting is
modelled by shadowing: `lookupKey` returns the most recent binding, and
pattern deletion removes shadowed bindings alike, so this is observationally
the Redis overwrite. -/
def insertKey (st : CacheState) (k : String) (v : Val) (ttl : Nat) : CacheState :=
  (k, v, ttl) :: st

/-- The shared Redis client handle.  `noClient` is an uninitialised/falsy
handle (`if redis_client:` guards fail); `client false st` is a reachable
handle whose commands raise (connection outage); `client true st` is a
healthy client over database `st`. -/
inductive CacheClient where
  | noClient
  | client : Bool → CacheState → CacheClient
  deriving DecidableEq

/-- Python exceptions relevant to the embedded handlers.  `httpExc` is
FastAPI's `HTTPException` (status code plus detail); `jwtError` is
`jose.JWTError`; `otherExc` stands for any other exception
(`TypeError`, `redis` connection errors, `AttributeError`, ...). -/
inductive PyExc where
  | jwtError
  | httpExc : Nat → String → PyExc
  | otherExc
  deriving DecidableEq

deriving instance DecidableEq for Except

/-- `app.core.cache.get_cache`: wraps `redis_client.get` in
`try/except Exception: return None`, so it never raises. -/
def get_cache : CacheClient → String → Option Val
  | CacheClient.client true st, k => (lookupKey st k).map (fun e => e.1)
  | _, _ => none

/-- `app.core.cache.set_cache`: `redis_client.setex` under
`try/except Exception: return False`; failures leave the store unchanged. -/
def set_cache (c : CacheClient) (k : String) (v : Val) (expire : Nat) : CacheClient :=
  match c with
  | CacheClient.client true st => CacheClient.client true (insertKey st k v expire)
  | other => other

/-- `app.core.cache.clear_cache_pattern`: `keys(pattern)` then `delete(*keys)`
under `try/except Exception: return False`. -/
def clear_cache_pattern (c : CacheClient) (pat : String) : CacheClient :=
  match c with
  | CacheClient.client true st =>
      CacheClient.client true (st.filter (fun e => ¬ globMatch pat e.1))
  | other => other

/-- A bare `redis_client.get(key)` with no surrounding `try`: raises when the
client handle is `None` (`AttributeError`) or the connection is down. -/
def redisGetRaw : CacheClient → String → Except PyExc (Option Val)
  | CacheClient.client true st, k => Except.ok ((lookupKey st k).map (fun e => e.1))
  | _, _ => Except.error PyExc.otherExc

/-- A bare `redis_client.setex(key, ttl, value)` with no surrounding `try`. -/
def redisSetexRaw (c : CacheClient) (k : String) (ttl : Nat) (v : Val) :
    Except PyExc CacheClient :=
  match c with
  | CacheClient.client true st => Except.ok (CacheClient.client true (insertKey st k v ttl))
  | _ => Except.error PyExc.otherExc

/-! ## Session tokens

`app/core/security.py` is not present under `src/` (only its callers are), so
token creation and verification are modelled from the spec (§4.1).  A token
is carried structurally; `raw` is the wire string (used only as the
blacklist key `f"blacklist:{token}"`), and `sigValid` models whether the
signature verifies. -/

inductive TokenKind where
  | access
  | refresh
  deriving DecidableEq, Repr

structure TokenData where
  sub : Option Nat
  iat : Nat
  exp : Nat
  kind : TokenKind
  sigValid : Bool
  raw : String
  deriving DecidableEq, Repr

/-- The decoded claims of a verified token. -/
structure TokenPayload where
  sub : Option Nat
  exp : Nat
  kind : TokenKind
  deriving DecidableEq, Repr

/-- `jose.jwt.decode(token, SECRET_KEY, algorithms=[ALGORITHM])` as called in
`src/app/api/deps.py`: raises `JWTError` when the signature is invalid or the
token has expired, otherwise returns the claims. -/
def jwtDecode (t : TokenData) (now : Nat) : Except PyExc TokenPayload :=
  if t.sigValid = false ∨ t.exp ≤ now then Except.error PyExc.jwtError
  else Except.ok ⟨t.sub, t.exp, t.kind⟩

/-- Modelled from the spec: `app.core.security.get_token_payload` is missing
from `src/`.  Spec §4.1 `verify(token_string)` "fails when signature invalid,
when expired, or when malformed" (all collapsing to `InvalidToken`, raised as
`JWTError` for its callers to catch) and otherwise returns
`{subject_id, kind, expires_at}`; it "does not by itself check revocation"
and does not reject by kind (the logout route calls it on access tokens). -/
def get_token_payload (t : TokenData) (now : Nat) : Except PyExc TokenPayload :=
  if t.sigValid = false ∨ t.exp ≤ now then Except.error PyExc.jwtError
  else Except.ok ⟨t.sub, t.exp, t.kind⟩

/-- Modelled from the spec: `app.core.security.create_access_token` is missing
from `src/`.  Spec §4.1 `issue(principal_id, kind)` encodes the subject id,
kind, issued-at, and an expiry computed from a configured TTL per kind
(`ACCESS_TOKEN_EXPIRE_MINUTES` in `app/core/config.py`), with a valid
signature.  `ttlA` is the access-token lifetime in seconds. -/
def create_access_token (uid : Nat) (now ttlA : Nat) : TokenData :=
  ⟨some uid, now, now + ttlA, TokenKind.access, true,
    "access." ++ natStr uid ++ "." ++ natStr now⟩

/-- Modelled from the spec: `app.core.security.create_refresh_token` is
missing from `src/`; symmetric to `create_access_token` with the
refresh-token lifetime `ttlR`. -/
def create_refresh_token (uid : Nat) (now ttlR : Nat) : TokenData :=
  ⟨some uid, now, now + ttlR, TokenKind.refresh, true,
    "refresh." ++ natStr uid ++ "." ++ natStr now⟩

/-! ## Principals -/

/-- The loosely-typed user dictionary produced by the external identity
provider (`OdooClient.get_user_info` reads `name`, `email`, `login`,
`partner_id`, plus the record `id`) or consumed by the endpoints through
`current_user.get(...)`.  A `.get` on an absent key yields `None`, hence the
`Option` fields; `is_superuser` models the truthiness of
`current_user.get("is_superuser")`. -/
structure UserInfo where
  id : Option Nat
  name : Option String
  email : Option String
  login : Option String
  odoo_login : Option String
  role : Option String
  is_superuser : Bool
  deriving DecidableEq, Repr

/-- The external identity collaborator: `reachable` models whether the
XML-RPC endpoint is up, `users` its `res.users` records by id. -/
structure OdooState where
  reachable : Bool
  users : List (Nat × UserInfo)
  deriving DecidableEq

/-- `OdooClient.get_user_info` (`src/app/core/odoo_client.py`): reads the user
record; the whole body is wrapped in `try/except Exception: return None`, so
an unreachable collaborator and a missing record are indistinguishable here —
both return `None` and the call NEVER raises. -/
def get_user_info (o : OdooState) (uid : Nat) : Option UserInfo :=
  if o.reachable then o.users.lookup uid else none

/-- The local `users` table row (`src/app/models/user.py`), restricted to the
columns the embedded handlers read. -/
structure UserRec where
  id : Nat
  email : String
  hashed_password : String
  is_active : Bool
  is_superuser : Bool
  deriving DecidableEq, Repr

def findUserById (db : List UserRec) (uid : Nat) : Option UserRec :=
  db.find? (fun u => u.id = uid)

def findUserByEmail (db : List UserRec) (email : String) : Option UserRec :=
  db.find? (fun u => u.email = email)

/-! ## Authentication resolver (`src/app/api/deps.py::get_current_user`) -/

/-- The collaborators `get_current_user` touches. -/
structure AuthCtx where
  cache : CacheClient
  odoo : OdooState
  deriving DecidableEq

/-- `get_current_user` from `src/app/api/deps.py` lines 25–74, embedded with
its exact exception flow.  The whole body sits in a `try` whose handlers are
`except JWTError → 401` and `except Exception → 500`; since FastAPI's
`HTTPException` is a subclass of `Exception`, every `HTTPException` raised
inside the body (401 for a falsy uid, 401 for a blacklisted token, and the
503 raised by the inner handler) is caught by the outer `except Exception`
and re-raised as `500 "Authentication error occurred"`.  The inner
`try/except Exception → 503` around the Odoo lookup likewise catches the
code's own `401 "User no longer exists"`. -/
def get_current_user (tok : TokenData) (now : Nat) (ctx : AuthCtx) :
    Except PyExc UserInfo :=
  let body : Except PyExc UserInfo :=
    match jwtDecode tok now with
    | Except.error e => Except.error e
    | Except.ok payload =>
      match payload.sub with
      | none => Except.error PyExc.otherExc   -- `int(None)` raises `TypeError`
      | some uid =>
        if uid = 0 then
          Except.error (PyExc.httpExc 401 "Could not validate credentials")
        else
          -- `if redis_client and redis_client.get(f"blacklist:{token}")`
          let blCheck : Except PyExc Unit :=
            match ctx.cache with
            | CacheClient.noClient => Except.ok ()   -- falsy handle: guard skips
            | c =>
              match redisGetRaw c ("blacklist:" ++ tok.raw) with
              | Except.error e => Except.error e
              | Except.ok (some _) =>
                  Except.error (PyExc.httpExc 401 "Token has been invalidated")
              | Except.ok none => Except.ok ()
          match blCheck with
          | Except.error e => Except.error e
          | Except.ok _ =>
            -- inner `try: ... except Exception: raise 503`
            let innerBody : Except PyExc UserInfo :=
              match get_user_info ctx.odoo uid with
              | none => Except.error (PyExc.httpExc 401 "User no longer exists")
              | some u => Except.ok u
            match innerBody with
            | Except.ok u => Except.ok u
            | Except.error _ =>
                Except.error
                  (PyExc.httpExc 503 "Error connecting to authentication service")
  match body with
  | Except.ok u => Except.ok u
  | Except.error PyExc.jwtError =>
      Except.error (PyExc.httpExc 401 "Invalid authentication credentials")
  | Except.error _ =>
      Except.error (PyExc.httpExc 500 "Authentication error occurred")

/-- A route handler guarded by the `get_current_user` dependency: the body
runs only when resolution succeeds.  The second component counts handler-body
executions. -/
def runProtected (tok : TokenData) (now : Nat) (ctx : AuthCtx)
    (handler : UserInfo → Except PyExc Val) : Except PyExc Val × Nat :=
  match get_current_user tok now ctx with
  | Except.error e => (Except.error e, 0)
  | Except.ok u => (handler u, 1)

/-! ## Auth endpoints (`src/app/api/v1/endpoints/auth.py`) -/

/-- The dict literal the login and refresh handler bodies return:
`{"access_token": ..., "refresh_token": ..., "token_type": "bearer"}`.
`odoo_uid` models `.get("odoo_uid")` on that dict — `none`, because neither
handler ever sets the key (an absent dict key, as in `UserInfo`). -/
structure TokenPair where
  access_token : TokenData
  refresh_token : TokenData
  token_type : String
  odoo_uid : Option Nat
  deriving DecidableEq, Repr

/-- The `login` handler body (auth.py lines 27–50): look the user up by
email; if the user is missing or the password does not verify, raise the SAME
`401 "Incorrect email or password"`; otherwise build the three-key
access+refresh dict.  `vp` is `app.core.security.verify_password` — modelled
from the spec (the module is missing from `src/`): an arbitrary
password-against-stored-hash verifier, §4.2(a).  The served route is
`login_route` below, which adds the `response_model=Token` validation
declared on line 27. -/
def login_endpoint (db : List UserRec) (username password : String)
    (vp : String → String → Bool) (now ttlA ttlR : Nat) : Except PyExc TokenPair :=
  match findUserByEmail db username with
  | none => Except.error (PyExc.httpExc 401 "Incorrect email or password")
  | some user =>
    if vp password user.hashed_password then
      Except.ok ⟨create_access_token user.id now ttlA,
        create_refresh_token user.id now ttlR, "bearer", none⟩
    else Except.error (PyExc.httpExc 401 "Incorrect email or password")

/-- The `refresh_token` handler body (auth.py lines 52–95).  The `try` around
the body catches ONLY `JWTError` (mapping it to 401); `HTTPException`s raised
inside pass through as responses, and a raising/absent Redis client
propagates out of the endpoint unhandled (`Except.error PyExc.otherExc`).
Note what the source does NOT do: it never inspects the token kind, and it
never checks `user.is_active` — it only 404s when the id is absent.  The
served route is `refresh_route` below, which adds the `response_model=Token`
validation declared on line 52. -/
def refresh_endpoint (rt : TokenData) (now : Nat) (db : List UserRec)
    (cache : CacheClient) (ttlA ttlR : Nat) : Except PyExc TokenPair :=
  let body : Except PyExc TokenPair :=
    match get_token_payload rt now with
    | Except.error e => Except.error e
    | Except.ok payload =>
      match payload.sub with
      | none => Except.error (PyExc.httpExc 401 "Invalid refresh token")
      | some uid =>
        -- `if redis_client.get(f"blacklist:{refresh_token}")` — no guard, no try
        match redisGetRaw cache ("blacklist:" ++ rt.raw) with
        | Except.error e => Except.error e
        | Except.ok (some _) =>
            Except.error (PyExc.httpExc 401 "Token has been invalidated")
        | Except.ok none =>
          match findUserById db uid with
          | none => Except.error (PyExc.httpExc 404 "User not found")
          | some user =>
            Except.ok ⟨create_access_token user.id now ttlA,
              create_refresh_token user.id now ttlR, "bearer", none⟩
  match body with
  | Except.error PyExc.jwtError =>
      Except.error (PyExc.httpExc 401 "Could not validate refresh token")
  | r => r

/-- `logout` (auth.py lines 97–124): decode the presented token, compute
`ttl = max(exp - now, 0)` (Nat subtraction is exactly this clamp), and write
the blacklist marker `"true"` with that TTL via a bare `redis_client.setex`.
Only `JWTError` is caught (→ 401); cache exceptions propagate unhandled.
Returns the new client state alongside the result. -/
def logout_endpoint (tok : TokenData) (now : Nat) (cache : CacheClient) :
    Except PyExc String × CacheClient :=
  match get_token_payload tok now with
  | Except.error PyExc.jwtError =>
      (Except.error (PyExc.httpExc 401 "Could not validate token"), cache)
  | Except.error e => (Except.error e, cache)
  | Except.ok payload =>
    let ttl := payload.exp - now
    match redisSetexRaw cache ("blacklist:" ++ tok.raw) ttl (Val.vStr "true") with
    | Except.error e => (Except.error e, cache)
    | Except.ok cache2 => (Except.ok "Successfully logged out", cache2)

/-- The `Token` response schema (`src/app/schemas/auth.py` lines 8–12),
declared via `response_model=Token` on both the login route (auth.py line 27)
and the refresh route (line 52).  All four fields — `access_token`,
`refresh_token`, `token_type`, and `odoo_uid : int` — are REQUIRED; `odoo_uid`
has no default. -/
structure TokenSchema where
  access_token : TokenData
  refresh_token : TokenData
  token_type : String
  odoo_uid : Nat
  deriving DecidableEq, Repr

/-- FastAPI validating a handler's returned dict against its declared
`response_model=Token` before sending the response: every required field
must be present, so a dict without an `odoo_uid` key fails with
`ResponseValidationError` — an exception the application installs no handler
for (`otherExc`; the framework turns it into a 500 response). -/
def validateTokenResponse (d : TokenPair) : Except PyExc TokenSchema :=
  match d.odoo_uid with
  | some u => Except.ok ⟨d.access_token, d.refresh_token, d.token_type, u⟩
  | none => Except.error PyExc.otherExc

/-- `POST /auth/login` as served: the handler body, then the route's declared
`response_model=Token` validation of whatever the body returned. -/
def login_route (db : List UserRec) (username password : String)
    (vp : String → String → Bool) (now ttlA ttlR : Nat) : Except PyExc TokenSchema :=
  match login_endpoint db username password vp now ttlA ttlR with
  | Except.error e => Except.error e
  | Except.ok d => validateTokenResponse d

/-- `POST /auth/refresh` as served: the handler body, then the route's
declared `response_model=Token` validation of whatever the body returned. -/
def refresh_route (rt : TokenData) (now : Nat) (db : List UserRec)
    (cache : CacheClient) (ttlA ttlR : Nat) : Except PyExc TokenSchema :=
  match refresh_endpoint rt now db cache ttlA ttlR with
  | Except.error e => Except.error e
  | Except.ok d => validateTokenResponse d

/-! ## The cache-aside decorator (`src/app/api/deps.py::cache_response`)

The decorated reads in the repository take integer-valued non-context
keyword arguments (e.g. `get_product(product_id: int)`), so keyword
arguments are embedded as `List (String × Nat)`; the per-request context
arguments `db`, `current_user`, `credentials` are carried under their names
(their values are never serialised — they are filtered out before any use). -/

abbrev KwArgs : Type := List (String × Nat)

/-- The context argument names excluded from the cache key
(`deps.py` line 87). -/
def ctxArgNames : List String := ["db", "current_user", "credentials"]

def dropCtxArgs (kwargs : KwArgs) : KwArgs :=
  kwargs.filter (fun kv => !(ctxArgNames.contains kv.1))

/-- Insertion of a pair into a key-sorted list (Python string order is
codepoint-lexicographic, as is `String.lt`). -/
def insertSorted (kv : String × Nat) : KwArgs → KwArgs
  | [] => [kv]
  | e :: rest => if kv.1 < e.1 then kv :: e :: rest else e :: insertSorted kv rest

/-- `json.dumps(..., sort_keys=True)` presents the keys in sorted order. -/
def sortKwargs : KwArgs → KwArgs
  | [] => []
  | kv :: rest => insertSorted kv (sortKwargs rest)

/-- The body of `json.dumps` output for a flat string→int object:
`"k1": v1, "k2": v2`. -/
def renderPairs : KwArgs → String
  | [] => ""
  | [kv] => "\"" ++ kv.1 ++ "\": " ++ natStr kv.2
  | kv :: rest => "\"" ++ kv.1 ++ "\": " ++ natStr kv.2 ++ ", " ++ renderPairs rest

/-- `json.dumps(cache_kwargs, sort_keys=True)` for a flat object of ints. -/
def jsonDumpsKwargs (kwargs : KwArgs) : String :=
  "\x7b" ++ renderPairs (sortKwargs kwargs) ++ "\x7d"

/-- The decorator's cache key (`deps.py` lines 84–92):
`{key_prefix}:{func.__name__}` plus, when any non-context kwargs remain,
`:{json.dumps(cache_kwargs, sort_keys=True)}`. -/
def cacheKeyFor (keyPfx fname : String) (kwargs : KwArgs) : String :=
  let ck := dropCtxArgs kwargs
  let base := keyPfx ++ ":" ++ fname
  match ck with
  | [] => base
  | _ => base ++ ":" ++ jsonDumpsKwargs ck

/-- Outcome of one call through the decorator: the response (or the exception
that escaped), the cache client afterwards, and how many times the wrapped
function body ran. -/
structure WrapOutcome where
  result : Except PyExc Val
  cache : CacheClient
  calls : Nat
  deriving DecidableEq

/-- `cache_response(expire, key_prefix)` applied to a wrapped function `f`
(`deps.py` lines 76–119).  Inside the `try`: build the key, consult the cache
through `get_cache` when the client is truthy (a hit returns the stored value
and never calls `f`), otherwise call `f`, store the encoded response, and
return it.  The `except Exception` branch — reached when `f` raises — calls
`f` a SECOND time and returns/raises whatever that second call does. -/
def cache_response (expire : Nat) (keyPfx fname : String)
    (f : KwArgs → Except PyExc Val) (kwargs : KwArgs) (cache : CacheClient) :
    WrapOutcome :=
  let key := cacheKeyFor keyPfx fname kwargs
  let cached : Option Val :=
    match cache with
    | CacheClient.noClient => none          -- `if redis_client:` guard is falsy
    | c => get_cache c key
  match cached with
  | some v => ⟨Except.ok v, cache, 0⟩       -- hit: `f` is bypassed entirely
  | none =>
    match f kwargs with
    | Except.ok r =>
      let cache2 :=
        match cache with
        | CacheClient.noClient => cache
        | c => set_cache c key r expire
      ⟨Except.ok r, cache2, 1⟩
    | Except.error _ =>
      -- `except Exception: response = await func(*args, **kwargs); return response`
      match f kwargs with
      | Except.ok r => ⟨Except.ok r, cache, 2⟩
      | Except.error e2 => ⟨Except.error e2, cache, 2⟩

/-! ## Product endpoints (`src/app/api/v1/endpoints/product.py`) -/

/-- A `products` row restricted to what the embedded handlers read: its id and
the ids of the categories attached through the `product_category` table. -/
structure ProductRec where
  id : Nat
  categoryIds : List Nat
  deriving DecidableEq, Repr

/-- The cache key `get_products` reads and populates (product.py line 55):
`f"product:list:c{category_id}:v{vendor_id}:s{search}:{skip}:{limit}"`. -/
def productListKey (cid vid : Option Nat) (search : Option String)
    (skip limit : Nat) : String :=
  "product:list:c" ++ optNatStr cid ++ ":v" ++ optNatStr vid ++ ":s"
    ++ optStrStr search ++ ":" ++ natStr skip ++ ":" ++ natStr limit

/-- The cache key `get_category_products` reads and populates
(category.py line 181): `f"category:{category_id}:products:{skip}:{limit}"`. -/
def categoryProductsKey (cid skip limit : Nat) : String :=
  "category:" ++ natStr cid ++ ":products:" ++ natStr skip ++ ":" ++ natStr limit

/-- `update_product` (product.py lines 143–184).  After the superuser check
and the 404 check it overwrites the scalar fields (not tracked here), REPLACES
the category set when `category_ids` was provided (attaching only ids present
in the `categories` table), commits, and then clears:
`"products:*"`, the exact string `f"product:get_product:{product_id}"`, and
`f"category:{category.id}:products:*"` for each category of the product AS IT
IS AFTER the update (`db_product.categories` is iterated after the commit). -/
def update_product (isSuper : Bool) (db : List ProductRec) (catsTable : List Nat)
    (pid : Nat) (newCats : Option (List Nat)) (cache : CacheClient) :
    Except PyExc ProductRec × List ProductRec × CacheClient :=
  if isSuper = false then
    (Except.error (PyExc.httpExc 403 "Not enough permissions"), db, cache)
  else
    match db.find? (fun p => p.id = pid) with
    | none => (Except.error (PyExc.httpExc 404 "Product not found"), db, cache)
    | some p =>
      let finalCats :=
        match newCats with
        | none => p.categoryIds
        | some cs => catsTable.filter (fun c => cs.contains c)
      let p2 : ProductRec := ⟨p.id, finalCats⟩
      let db2 := db.map (fun q => if q.id = pid then p2 else q)
      let c1 := clear_cache_pattern cache "products:*"
      let c2 := clear_cache_pattern c1 ("product:get_product:" ++ natStr pid)
      let c3 := finalCats.foldl
        (fun c cid => clear_cache_pattern c ("category:" ++ natStr cid ++ ":products:*"))
        c2
      (Except.ok p2, db2, c3)

/-! ## User endpoints (`src/app/api/v1/endpoints/user.py`, mounted in
`src/app/api/v1/api.py`) -/

/-- The admin-signal OR-chain `any([...])` used by `get_user`
(user.py lines 65–71): superuser flag, `odoo_login == "admin"`,
`name == "Administrator"`, `login == "admin"`, or `role == "admin"`. -/
def is_admin_signals (cu : UserInfo) : Bool :=
  cu.is_superuser || cu.odoo_login == some "admin" || cu.name == some "Administrator"
    || cu.login == some "admin" || cu.role == some "admin"

/-- The handler body of `get_user` (user.py lines 54–91), given the resolved
principal: deny 403 unless an admin signal holds or the principal's own id
equals the target; then 404 or the record. -/
def get_user_endpoint (cu : UserInfo) (target : Nat) (db : List UserRec) :
    Except PyExc UserRec :=
  let is_admin := is_admin_signals cu
  let is_self := cu.id == some target
  if ¬ is_admin ∧ ¬ is_self then
    Except.error (PyExc.httpExc 403 "Not enough permissions")
  else
    match findUserById db target with
    | none => Except.error (PyExc.httpExc 404 "User not found")
    | some u => Except.ok u

/-- The handler body of `update_user` (user.py lines 113–134), given the
resolved principal: deny 403 unless `is_superuser` or self; then 404 or apply
the field updates `upd` and return the refreshed record. -/
def update_user_endpoint (cu : UserInfo) (target : Nat) (db : List UserRec)
    (upd : UserRec → UserRec) : Except PyExc UserRec :=
  if ¬ cu.is_superuser ∧ ¬ (cu.id == some target) then
    Except.error (PyExc.httpExc 403 "Not enough permissions")
  else
    match findUserById db target with
    | none => Except.error (PyExc.httpExc 404 "User not found")
    | some u => Except.ok (upd u)

/-- `get_current_superuser` (`deps.py` lines 128–137), given an
already-resolved principal: 403 unless `current_user.get("is_superuser")` is
truthy. -/
def get_current_superuser (cu : UserInfo) : Except PyExc UserInfo :=
  if cu.is_superuser then Except.ok cu
  else Except.error (PyExc.httpExc 403 "Superuser privileges required")

/-- The user router is mounted with
`dependencies=[Depends(deps.get_current_superuser)]` (api.py lines 61–66,
under the comment "Admin routes (require superuser)"), so EVERY `/users/...`
request passes the superuser gate before the handler body runs. -/
def get_user_route (cu : UserInfo) (target : Nat) (db : List UserRec) :
    Except PyExc UserRec :=
  match get_current_superuser cu with
  | Except.error e => Except.error e
  | Except.ok _ => get_user_endpoint cu target db

/-- `PUT /users/{user_id}` through the same mounted superuser gate. -/
def update_user_route (cu : UserInfo) (target : Nat) (db : List UserRec)
    (upd : UserRec → UserRec) : Except PyExc UserRec :=
  match get_current_superuser cu with
  | Except.error e => Except.error e
  | Except.ok _ => update_user_endpoint cu target db upd

/-! ## Cache-store lemmas -/

theorem lookupKey_insert_self (st : CacheState) (k : String) (v : Val) (ttl : Nat) :
    lookupKey (insertKey st k v ttl) k = some (v, ttl) := by
  simp [insertKey, lookupKey]

theorem lookupKey_insert_ne (st : CacheState) (k k2 : String) (v : Val) (ttl : Nat)
    (h : k2 ≠ k) : lookupKey (insertKey st k v ttl) k2 = lookupKey st k2 := by
  simp [insertKey, lookupKey, Ne.symm h]

theorem get_cache_insert_self (st : CacheState) (k : String) (v : Val) (ttl : Nat) :
    get_cache (CacheClient.client true (insertKey st k v ttl)) k = some v := by
  simp [get_cache, lookupKey_insert_self]

/-! ## Cache-key lemmas for the decorator -/

theorem dropCtxArgs_single (p : String) (n : Nat) (hp : ctxArgNames.contains p = false) :
    dropCtxArgs [(p, n)] = [(p, n)] := by
  simp [dropCtxArgs, List.filter_cons, hp]
  simpa using hp

theorem cacheKeyFor_single (kp fn p : String) (n : Nat)
    (hp : ctxArgNames.contains p = false) :
    cacheKeyFor kp fn [(p, n)]
      = (kp ++ ":" ++ fn ++ ":" ++ "\x7b" ++ "\"" ++ p ++ "\": ") ++ natStr n ++ "\x7d" := by
  rw [cacheKeyFor, dropCtxArgs_single p n hp]
  show kp ++ ":" ++ fn ++ ":" ++ jsonDumpsKwargs [(p, n)] = _
  rw [show jsonDumpsKwargs [(p, n)]
      = "\x7b" ++ ("\"" ++ p ++ "\": " ++ natStr n) ++ "\x7d" from rfl]
  apply String.ext
  simp [String.data_append, List.append_assoc]

theorem append_natStr_cancel {a b : String} {n m : Nat}
    (h : a ++ natStr n ++ b = a ++ natStr m ++ b) : n = m := by
  have h1 := congrArg String.data h
  simp only [String.data_append] at h1
  exact natStr_data_inj (List.append_cancel_left (List.append_cancel_right h1))

theorem cacheKeyFor_single_inj (kp fn p : String) {n m : Nat}
    (hp : ctxArgNames.contains p = false)
    (h : cacheKeyFor kp fn [(p, n)] = cacheKeyFor kp fn [(p, m)]) : n = m := by
  rw [cacheKeyFor_single kp fn p n hp, cacheKeyFor_single kp fn p m hp] at h
  exact append_natStr_cancel h

/-! ## Claim theorems -/

/-- Claim C1: the claim says a revoked (logged-out), not-yet-expired access
token on a protected route fails authentication with HTTP 401 and the handler
body does not run.  On the code, the handler body indeed never runs, but the
response is `500 "Authentication error occurred"`, not 401: the
`401 "Token has been invalidated"` raised for a blacklisted token is caught by
`get_current_user`'s own `except Exception` and re-raised as 500.  This
theorem evaluates the code at the failing input: the token is logged out at
time 10 (the blacklist write succeeds), is presented again at time 50, well
before its natural expiry 1000, and resolution yields the 500 response with
zero handler executions. -/
theorem C1_revoked_token_rejected_as_500_not_401 :
    (logout_endpoint ⟨some 7, 0, 1000, TokenKind.access, true, "t7"⟩ 10
        (CacheClient.client true [])).1 = Except.ok "Successfully logged out"
    ∧ runProtected ⟨some 7, 0, 1000, TokenKind.access, true, "t7"⟩ 50
        ⟨(logout_endpoint ⟨some 7, 0, 1000, TokenKind.access, true, "t7"⟩ 10
            (CacheClient.client true [])).2,
          ⟨true, [(7, ⟨some 7, some "Bob", none, some "bob", none, none, false⟩)]⟩⟩
        (fun _ => Except.ok (Val.vStr "handler-body"))
      = (Except.error (PyExc.httpExc 500 "Authentication error occurred"), 0) := by
  decide

/-- Claim C4: the claim says a valid, non-revoked token whose subject has no
record at the external identity collaborator fails with 401, that an
unreachable collaborator fails with 503, and that the two are distinguished.
On the code neither status can surface: `OdooClient.get_user_info` swallows
every exception and returns `None`, so both situations take the
`if not user_info` branch; the `401 "User no longer exists"` raised there is
caught by the inner `except Exception` and re-raised as 503, which the outer
`except Exception` then converts to `500 "Authentication error occurred"`.
This theorem evaluates both failing inputs — same valid unexpired token,
empty blacklist; once with a reachable collaborator that has no record for
subject 7, once with an unreachable collaborator — and shows both produce
the identical 500 response. -/
theorem C4_missing_principal_and_outage_collapse_to_500 :
    get_current_user ⟨some 7, 0, 1000, TokenKind.access, true, "t7"⟩ 50
        ⟨CacheClient.client true [], ⟨true, []⟩⟩
      = Except.error (PyExc.httpExc 500 "Authentication error occurred")
    ∧ get_current_user ⟨some 7, 0, 1000, TokenKind.access, true, "t7"⟩ 50
        ⟨CacheClient.client true [],
          ⟨false, [(7, ⟨some 7, some "Bob", none, some "bob", none, none, false⟩)]⟩⟩
      = Except.error (PyExc.httpExc 500 "Authentication error occurred")
    ∧ get_current_user ⟨some 7, 0, 1000, TokenKind.access, true, "t7"⟩ 50
          ⟨CacheClient.client true [], ⟨true, []⟩⟩
        = get_current_user ⟨some 7, 0, 1000, TokenKind.access, true, "t7"⟩ 50
          ⟨CacheClient.client true [],
            ⟨false, [(7, ⟨some 7, some "Bob", none, some "bob", none, none, false⟩)]⟩⟩ := by
  decide

/-- Claim C2: the claim says a successful product update leaves no
product-list entry, no single-product entry for the updated product, and no
category-product-listing entry for any category the product belonged to
before or after the update, while unrelated namespaces survive.  On the code
the invalidation misses on all three counts, evaluated here on one concrete
store.  Product 5 moves from category 7 to category 3; the store holds the
product-list entry written by `get_products`
(`"product:list:cNone:vNone:sNone:0:100"`), the single-product entry written
by the `cache_response` decorator for `get_product(product_id=5)`
(`"product:get_product:" ++ json.dumps`, produced here by `cacheKeyFor`), and
the category-7 listing entry written by `get_category_products`.  After the
update the store is COMPLETELY unchanged: `clear_cache_pattern("products:*")`
matches no `product:list:*` key, the exact pattern
`"product:get_product:5"` is not the decorator's JSON-suffixed key, and the
category loop runs over the post-update categories (only 3), never over the
removed-from category 7.  A subsequent decorated read of product 5 then hits
the stale entry with zero executions of the fresh handler. -/
theorem C2_update_product_leaves_stale_entries :
    update_product true [⟨5, [7]⟩] [3, 7] 5 (some [3])
        (CacheClient.client true
          [(productListKey none none none 0 100, Val.vStr "stale-list", 1800),
           (cacheKeyFor "product" "get_product" [("product_id", 5)], Val.vStr "stale-product", 3600),
           (categoryProductsKey 7 0 100, Val.vStr "stale-cat7", 1800)])
      = (Except.ok ⟨5, [3]⟩, [⟨5, [3]⟩],
          CacheClient.client true
            [(productListKey none none none 0 100, Val.vStr "stale-list", 1800),
             (cacheKeyFor "product" "get_product" [("product_id", 5)], Val.vStr "stale-product", 3600),
             (categoryProductsKey 7 0 100, Val.vStr "stale-cat7", 1800)])
    ∧ cache_response 3600 "product" "get_product" (fun _ => Except.ok (Val.vStr "fresh"))
        [("product_id", 5), ("db", 0), ("credentials", 0)]
        (CacheClient.client true
          [(productListKey none none none 0 100, Val.vStr "stale-list", 1800),
           (cacheKeyFor "product" "get_product" [("product_id", 5)], Val.vStr "stale-product", 3600),
           (categoryProductsKey 7 0 100, Val.vStr "stale-cat7", 1800)])
      = ⟨Except.ok (Val.vStr "stale-product"),
          CacheClient.client true
            [(productListKey none none none 0 100, Val.vStr "stale-list", 1800),
             (cacheKeyFor "product" "get_product" [("product_id", 5)], Val.vStr "stale-product", 3600),
             (categoryProductsKey 7 0 100, Val.vStr "stale-cat7", 1800)], 0⟩ := by
  decide

/-- Claim C3 counterexample: the claim says a Cache Store outage during a
blacklist consultation is treated as "not revoked" (fail-open) and never
makes the request itself fail.  Concretely, with a reachable-but-raising
Redis client (`client false`), a valid non-blacklisted token and a healthy
identity collaborator, protected-route resolution fails with
`500 "Authentication error occurred"` (the Redis exception is caught by the
outer `except Exception`), and the refresh endpoint — whose bare
`redis_client.get` has no guard and no except clause for it — lets the
exception escape unhandled; a falsy client in refresh likewise escapes
(`AttributeError`).  The requests fail instead of proceeding. -/
theorem C3_cache_outage_fails_requests :
    get_current_user ⟨some 3, 0, 1000, TokenKind.refresh, true, "r3"⟩ 50
        ⟨CacheClient.client false [],
          ⟨true, [(3, ⟨some 3, some "Ann", none, some "ann", none, none, false⟩)]⟩⟩
      = Except.error (PyExc.httpExc 500 "Authentication error occurred")
    ∧ refresh_endpoint ⟨some 3, 0, 1000, TokenKind.refresh, true, "r3"⟩ 50
        [⟨3, "ann@x", "h", true, false⟩] (CacheClient.client false []) 1800 7200
      = Except.error PyExc.otherExc
    ∧ refresh_endpoint ⟨some 3, 0, 1000, TokenKind.refresh, true, "r3"⟩ 50
        [⟨3, "ann@x", "h", true, false⟩] CacheClient.noClient 1800 7200
      = Except.error PyExc.otherExc := by
  decide

/-- Claim C3 amended: fail-open holds only for the one unavailability shape
`get_current_user` guards against — a falsy (uninitialised) client handle, in
which case the blacklist consultation is skipped and resolution behaves
exactly as with an empty blacklist.  An outage in which the client RAISES
fails the request: protected-route resolution returns
`500 "Authentication error occurred"`, and the refresh endpoint lets the
cache exception escape unhandled (framework 500) whether the client raises or
is absent. -/
theorem C3_fail_open_amended (tok : TokenData) (now : Nat) (odoo : OdooState)
    (st : CacheState) (p : TokenPayload) (uid : Nat) (db : List UserRec)
    (ttlA ttlR : Nat) :
    (get_current_user tok now ⟨CacheClient.noClient, odoo⟩
        = get_current_user tok now ⟨CacheClient.client true [], odoo⟩)
    ∧ (jwtDecode tok now = Except.ok p → p.sub = some uid → uid ≠ 0 →
        get_current_user tok now ⟨CacheClient.client false st, odoo⟩
          = Except.error (PyExc.httpExc 500 "Authentication error occurred"))
    ∧ (get_token_payload tok now = Except.ok p → p.sub = some uid →
        refresh_endpoint tok now db (CacheClient.client false st) ttlA ttlR
          = Except.error PyExc.otherExc
        ∧ refresh_endpoint tok now db CacheClient.noClient ttlA ttlR
          = Except.error PyExc.otherExc) := by
  refine ⟨rfl, ?_, ?_⟩
  · intro hdec hsub huid
    unfold get_current_user
    rw [hdec]
    simp [hsub, huid, redisGetRaw]
  · intro hpay hsub
    constructor
    · unfold refresh_endpoint
      rw [hpay]
      simp [hsub, redisGetRaw]
    · unfold refresh_endpoint
      rw [hpay]
      simp [hsub, redisGetRaw]

/-- Witness for `C3_fail_open_amended` at a concrete input: token sub=3,
exp=1000, presented at t=50 with a raising client. -/
theorem C3_fail_open_amended_witness :
    get_current_user ⟨some 3, 0, 1000, TokenKind.refresh, true, "r3"⟩ 50
        ⟨CacheClient.client false [], ⟨true, []⟩⟩
      = Except.error (PyExc.httpExc 500 "Authentication error occurred")
    ∧ refresh_endpoint ⟨some 3, 0, 1000, TokenKind.refresh, true, "r3"⟩ 50
        [] (CacheClient.client false []) 1800 7200
      = Except.error PyExc.otherExc :=
  ⟨(C3_fail_open_amended ⟨some 3, 0, 1000, TokenKind.refresh, true, "r3"⟩ 50
      ⟨true, []⟩ [] ⟨some 3, 1000, TokenKind.refresh⟩ 3 [] 1800 7200).2.1
        (by decide) rfl (by decide),
   ((C3_fail_open_amended ⟨some 3, 0, 1000, TokenKind.refresh, true, "r3"⟩ 50
      ⟨true, []⟩ [] ⟨some 3, 1000, TokenKind.refresh⟩ 3 [] 1800 7200).2.2
        (by decide) rfl).1⟩

/-- Claim C5 counterexample: the claim says the refresh operation rejects
access-kind tokens with `InvalidToken` (401), and that a valid, non-revoked
refresh-kind token of an active principal yields a new access+refresh pair.
Both parts fail concretely.  A valid ACCESS-kind token for user 3, whose
record has `is_active = False`, passes every check of the handler body — it
never inspects the token kind and never reads `is_active` — and a fresh pair
is issued, so there is no `InvalidToken` rejection; and neither that request
nor a valid REFRESH-kind token of an ACTIVE principal ever yields the pair:
the route's declared `response_model=Token` requires `odoo_uid`, which the
handler's three-key dict never carries, so both requests end in the
unhandled `ResponseValidationError` (the framework's 500), not in a 401 and
not in a returned token pair. -/
theorem C5_access_token_and_inactive_user_refresh :
    refresh_endpoint ⟨some 3, 0, 1000, TokenKind.access, true, "a3"⟩ 50
        [⟨3, "ann@x", "h", false, false⟩] (CacheClient.client true []) 1800 7200
      = Except.ok ⟨create_access_token 3 50 1800, create_refresh_token 3 50 7200,
          "bearer", none⟩
    ∧ refresh_route ⟨some 3, 0, 1000, TokenKind.access, true, "a3"⟩ 50
        [⟨3, "ann@x", "h", false, false⟩] (CacheClient.client true []) 1800 7200
      = Except.error PyExc.otherExc
    ∧ refresh_route ⟨some 3, 0, 1000, TokenKind.refresh, true, "r3"⟩ 50
        [⟨3, "ann@x", "h", true, false⟩] (CacheClient.client true []) 1800 7200
      = Except.error PyExc.otherExc
    ∧ (⟨some 3, 0, 1000, TokenKind.access, true, "a3"⟩ : TokenData).kind = TokenKind.access
    ∧ (⟨3, "ann@x", "h", false, false⟩ : UserRec).is_active = false
    ∧ (⟨3, "ann@x", "h", true, false⟩ : UserRec).is_active = true := by
  decide

/-- Claim C5 amended: an expired (or signature-invalid) refresh token IS
rejected with `401 "Could not validate refresh token"`.  Beyond that the
handler body accepts any valid, non-blacklisted token — of EITHER kind —
whose subject exists in the users table, active or not, and builds a fresh
pair whose new refresh token expires at `now + ttlR` (strictly later than the
old expiry whenever the old token was issued before `now` with lifetime
`ttlR`); but the pair is never returned to the client: the route's declared
`response_model=Token` requires `odoo_uid`, which the handler never supplies,
so every would-be success is the unhandled `ResponseValidationError`
(framework 500) — no refresh ever succeeds as served.  A missing subject
yields `404 "User not found"`, not 401. -/
theorem C5_refresh_amended (rt : TokenData) (now : Nat) (db : List UserRec)
    (st : CacheState) (ttlA ttlR : Nat) :
    ((rt.sigValid = false ∨ rt.exp ≤ now) →
        refresh_route rt now db (CacheClient.client true st) ttlA ttlR
          = Except.error (PyExc.httpExc 401 "Could not validate refresh token"))
    ∧ (∀ uid u, rt.sigValid = true → now < rt.exp → rt.sub = some uid →
        lookupKey st ("blacklist:" ++ rt.raw) = none →
        findUserById db uid = some u →
        refresh_endpoint rt now db (CacheClient.client true st) ttlA ttlR
          = Except.ok ⟨create_access_token u.id now ttlA,
              create_refresh_token u.id now ttlR, "bearer", none⟩
          ∧ refresh_route rt now db (CacheClient.client true st) ttlA ttlR
            = Except.error PyExc.otherExc
          ∧ (create_refresh_token u.id now ttlR).exp = now + ttlR
          ∧ (rt.exp ≤ rt.iat + ttlR → rt.iat < now →
              rt.exp < (create_refresh_token u.id now ttlR).exp))
    ∧ (∀ uid, rt.sigValid = true → now < rt.exp → rt.sub = some uid →
        lookupKey st ("blacklist:" ++ rt.raw) = none →
        findUserById db uid = none →
        refresh_route rt now db (CacheClient.client true st) ttlA ttlR
          = Except.error (PyExc.httpExc 404 "User not found")) := by
  refine ⟨?_, ?_, ?_⟩
  · intro h
    have hpay : get_token_payload rt now = Except.error PyExc.jwtError := by
      unfold get_token_payload
      rw [if_pos h]
    have hend : refresh_endpoint rt now db (CacheClient.client true st) ttlA ttlR
        = Except.error (PyExc.httpExc 401 "Could not validate refresh token") := by
      unfold refresh_endpoint
      rw [hpay]
    unfold refresh_route
    rw [hend]
  · intro uid u hsig hexp hsub hbl hfind
    have hpay : get_token_payload rt now = Except.ok ⟨rt.sub, rt.exp, rt.kind⟩ := by
      unfold get_token_payload
      rw [if_neg (by push_neg; exact ⟨by simp [hsig], by omega⟩)]
    have hend : refresh_endpoint rt now db (CacheClient.client true st) ttlA ttlR
        = Except.ok ⟨create_access_token u.id now ttlA,
            create_refresh_token u.id now ttlR, "bearer", none⟩ := by
      unfold refresh_endpoint
      rw [hpay]
      simp [hsub, redisGetRaw, hbl, hfind]
    refine ⟨hend, ?_, rfl, ?_⟩
    · unfold refresh_route
      rw [hend]
      rfl
    · intro hlife hiat
      show rt.exp < now + ttlR
      omega
  · intro uid hsig hexp hsub hbl hfind
    have hpay : get_token_payload rt now = Except.ok ⟨rt.sub, rt.exp, rt.kind⟩ := by
      unfold get_token_payload
      rw [if_neg (by push_neg; exact ⟨by simp [hsig], by omega⟩)]
    have hend : refresh_endpoint rt now db (CacheClient.client true st) ttlA ttlR
        = Except.error (PyExc.httpExc 404 "User not found") := by
      unfold refresh_endpoint
      rw [hpay]
      simp [hsub, redisGetRaw, hbl, hfind]
    unfold refresh_route
    rw [hend]

/-- Witness for `C5_refresh_amended`: an expired refresh token (exp 40,
presented at t=50) is rejected 401 through the served route; a live refresh
token for existing active user 3 has its fresh pair built by the handler, and
the served route then fails with the unhandled response-validation error. -/
theorem C5_refresh_amended_witness :
    refresh_route ⟨some 3, 0, 40, TokenKind.refresh, true, "old"⟩ 50
        [⟨3, "ann@x", "h", true, false⟩] (CacheClient.client true []) 1800 7200
      = Except.error (PyExc.httpExc 401 "Could not validate refresh token")
    ∧ refresh_endpoint ⟨some 3, 0, 1000, TokenKind.refresh, true, "r3"⟩ 50
        [⟨3, "ann@x", "h", true, false⟩] (CacheClient.client true []) 1800 7200
      = Except.ok ⟨create_access_token 3 50 1800, create_refresh_token 3 50 7200,
          "bearer", none⟩
    ∧ refresh_route ⟨some 3, 0, 1000, TokenKind.refresh, true, "r3"⟩ 50
        [⟨3, "ann@x", "h", true, false⟩] (CacheClient.client true []) 1800 7200
      = Except.error PyExc.otherExc :=
  ⟨(C5_refresh_amended ⟨some 3, 0, 40, TokenKind.refresh, true, "old"⟩ 50
      [⟨3, "ann@x", "h", true, false⟩] [] 1800 7200).1 (Or.inr (by decide)),
   ((C5_refresh_amended ⟨some 3, 0, 1000, TokenKind.refresh, true, "r3"⟩ 50
      [⟨3, "ann@x", "h", true, false⟩] [] 1800 7200).2.1 3 ⟨3, "ann@x", "h", true, false⟩
      rfl (by decide) rfl rfl (by decide)).1,
   ((C5_refresh_amended ⟨some 3, 0, 1000, TokenKind.refresh, true, "r3"⟩ 50
      [⟨3, "ann@x", "h", true, false⟩] [] 1800 7200).2.1 3 ⟨3, "ann@x", "h", true, false⟩
      rfl (by decide) rfl rfl (by decide)).2.1⟩

/-- Claim C6 counterexample: the claim says revoking an already-expired token
is a no-op that writes nothing and raises no error.  Concretely, logging out
a token whose expiry 40 has passed (t = 50) raises
`401 "Could not validate token"`: `get_token_payload` fails on an expired
token with `JWTError` before the TTL computation is ever reached, so the
"expired" branch is an error response, not a silent no-op (the store is
indeed left unchanged, but an error IS raised, contradicting the claim's
conjunction). -/
theorem C6_expired_logout_raises_401 :
    logout_endpoint ⟨some 3, 0, 40, TokenKind.access, true, "t3"⟩ 50
        (CacheClient.client true [])
      = (Except.error (PyExc.httpExc 401 "Could not validate token"),
         CacheClient.client true []) := by
  decide

/-- Claim C6 amended: for a token that still has remaining lifetime, logout
writes the revocation marker `"true"` under `f"blacklist:{token}"` with TTL
exactly `expires_at - now` as measured at revocation time (the `max(..., 0)`
clamp is Nat subtraction and is vacuous here), so the marker is found until
the token's natural expiry and self-expires with it; an already-expired token
is instead rejected with `401 "Could not validate token"` and the store is
unchanged — not the claimed silent no-op. -/
theorem C6_logout_amended (tok : TokenData) (now : Nat) (st : CacheState) :
    (tok.sigValid = true → now < tok.exp →
        logout_endpoint tok now (CacheClient.client true st)
          = (Except.ok "Successfully logged out",
             CacheClient.client true
               (insertKey st ("blacklist:" ++ tok.raw) (Val.vStr "true") (tok.exp - now)))
        ∧ lookupKey (insertKey st ("blacklist:" ++ tok.raw) (Val.vStr "true") (tok.exp - now))
            ("blacklist:" ++ tok.raw) = some (Val.vStr "true", tok.exp - now))
    ∧ ((tok.sigValid = false ∨ tok.exp ≤ now) →
        logout_endpoint tok now (CacheClient.client true st)
          = (Except.error (PyExc.httpExc 401 "Could not validate token"),
             CacheClient.client true st)) := by
  constructor
  · intro hsig hexp
    have hpay : get_token_payload tok now = Except.ok ⟨tok.sub, tok.exp, tok.kind⟩ := by
      unfold get_token_payload
      rw [if_neg (by push_neg; exact ⟨by simp [hsig], by omega⟩)]
    constructor
    · unfold logout_endpoint
      rw [hpay]
      simp [redisSetexRaw]
    · exact lookupKey_insert_self st ("blacklist:" ++ tok.raw) (Val.vStr "true") (tok.exp - now)
  · intro h
    have hpay : get_token_payload tok now = Except.error PyExc.jwtError := by
      unfold get_token_payload
      rw [if_pos h]
    unfold logout_endpoint
    rw [hpay]

/-- Witness for `C6_logout_amended`: token exp 1000 logged out at t = 10 gets
a marker with TTL 990; the same token already expired at t = 1000 gets the
401. -/
theorem C6_logout_amended_witness :
    logout_endpoint ⟨some 7, 0, 1000, TokenKind.access, true, "t7"⟩ 10
        (CacheClient.client true [])
      = (Except.ok "Successfully logged out",
         CacheClient.client true [("blacklist:t7", Val.vStr "true", 990)])
    ∧ logout_endpoint ⟨some 7, 0, 1000, TokenKind.access, true, "t7"⟩ 1000
        (CacheClient.client true [])
      = (Except.error (PyExc.httpExc 401 "Could not validate token"),
         CacheClient.client true []) :=
  ⟨((C6_logout_amended ⟨some 7, 0, 1000, TokenKind.access, true, "t7"⟩ 10 []).1
      rfl (by decide)).1,
   (C6_logout_amended ⟨some 7, 0, 1000, TokenKind.access, true, "t7"⟩ 1000 []).2
      (Or.inr (by decide))⟩

/-- Claim C7: the cache-aside decorator derives its key only from the
non-context keyword arguments (`db`, `current_user`, `credentials` are
filtered out, so appending any context arguments leaves the key unchanged); a
first call whose key is absent invokes the wrapped function once and stores
its result under the key; an immediate second call with identical arguments
returns the stored value with ZERO invocations of the wrapped function; and
two argument sets differing in the value of a (non-context) parameter produce
distinct keys — injectivity of the rendered `json.dumps` — so the second
argument set still misses in a store populated by the first and runs its own
computation.  (The decorated reads of the repository pass integer-valued
parameters, e.g. `get_product(product_id)`, which is the
single-parameter shape quantified here.) -/
theorem C7_cache_aside_decorator (expire : Nat) (kp fn pname : String)
    (f : KwArgs → Except PyExc Val) (kwargs extra : KwArgs) (st : CacheState)
    (r r2 : Val) (n m : Nat) :
    ((∀ kv ∈ extra, ctxArgNames.contains kv.1 = true) →
        cacheKeyFor kp fn (kwargs ++ extra) = cacheKeyFor kp fn kwargs)
    ∧ (lookupKey st (cacheKeyFor kp fn kwargs) = none → f kwargs = Except.ok r →
        cache_response expire kp fn f kwargs (CacheClient.client true st)
          = ⟨Except.ok r,
             CacheClient.client true (insertKey st (cacheKeyFor kp fn kwargs) r expire), 1⟩
        ∧ cache_response expire kp fn f kwargs
            (CacheClient.client true (insertKey st (cacheKeyFor kp fn kwargs) r expire))
          = ⟨Except.ok r,
             CacheClient.client true (insertKey st (cacheKeyFor kp fn kwargs) r expire), 0⟩)
    ∧ (ctxArgNames.contains pname = false → n ≠ m →
        cacheKeyFor kp fn [(pname, n)] ≠ cacheKeyFor kp fn [(pname, m)]
        ∧ (lookupKey st (cacheKeyFor kp fn [(pname, m)]) = none →
            f [(pname, m)] = Except.ok r2 →
            cache_response expire kp fn f [(pname, m)]
              (CacheClient.client true
                (insertKey st (cacheKeyFor kp fn [(pname, n)]) r expire))
              = ⟨Except.ok r2,
                 CacheClient.client true
                   (insertKey (insertKey st (cacheKeyFor kp fn [(pname, n)]) r expire)
                     (cacheKeyFor kp fn [(pname, m)]) r2 expire), 1⟩)) := by
  refine ⟨?_, ?_, ?_⟩
  · intro hextra
    have hdrop : dropCtxArgs (kwargs ++ extra) = dropCtxArgs kwargs := by
      unfold dropCtxArgs
      rw [List.filter_append]
      have hnil : extra.filter (fun kv => !(ctxArgNames.contains kv.1)) = [] :=
        List.filter_eq_nil_iff.mpr (fun kv hkv => by simpa using hextra kv hkv)
      rw [hnil, List.append_nil]
    unfold cacheKeyFor
    rw [hdrop]
  · intro hmiss hok
    constructor
    · unfold cache_response
      simp [get_cache, hmiss, hok, set_cache]
    · unfold cache_response
      simp [get_cache, lookupKey_insert_self]
  · intro hp hnm
    have hkey : cacheKeyFor kp fn [(pname, m)] ≠ cacheKeyFor kp fn [(pname, n)] :=
      fun h => hnm (cacheKeyFor_single_inj kp fn pname hp h).symm
    refine ⟨fun h => hnm (cacheKeyFor_single_inj kp fn pname hp h), ?_⟩
    intro hmiss2 hok2
    unfold cache_response
    simp [get_cache, lookupKey_insert_ne _ _ _ _ _ hkey, hmiss2, hok2, set_cache]

/-- Witness for `C7_cache_aside_decorator` at the decorated read of the
repository (`get_product`): context arguments do not change the key; a first
call on product 5 misses, runs once and populates; the second call hits with
zero runs; product 6 has a distinct key and its own independent miss. -/
theorem C7_cache_aside_decorator_witness :
    cacheKeyFor "product" "get_product" [("product_id", 5), ("db", 0), ("credentials", 1)]
      = cacheKeyFor "product" "get_product" [("product_id", 5)]
    ∧ cache_response 60 "product" "get_product" (fun _ => Except.ok (Val.vNat 1))
        [("product_id", 5)] (CacheClient.client true [])
      = ⟨Except.ok (Val.vNat 1),
         CacheClient.client true
           (insertKey [] (cacheKeyFor "product" "get_product" [("product_id", 5)])
             (Val.vNat 1) 60), 1⟩
    ∧ cache_response 60 "product" "get_product" (fun _ => Except.ok (Val.vNat 1))
        [("product_id", 5)]
        (CacheClient.client true
          (insertKey [] (cacheKeyFor "product" "get_product" [("product_id", 5)])
            (Val.vNat 1) 60))
      = ⟨Except.ok (Val.vNat 1),
         CacheClient.client true
           (insertKey [] (cacheKeyFor "product" "get_product" [("product_id", 5)])
             (Val.vNat 1) 60), 0⟩
    ∧ cacheKeyFor "product" "get_product" [("product_id", 5)]
        ≠ cacheKeyFor "product" "get_product" [("product_id", 6)]
    ∧ cache_response 60 "product" "get_product" (fun _ => Except.ok (Val.vNat 1))
        [("product_id", 6)]
        (CacheClient.client true
          (insertKey [] (cacheKeyFor "product" "get_product" [("product_id", 5)])
            (Val.vNat 1) 60))
      = ⟨Except.ok (Val.vNat 1),
         CacheClient.client true
           (insertKey
             (insertKey [] (cacheKeyFor "product" "get_product" [("product_id", 5)])
               (Val.vNat 1) 60)
             (cacheKeyFor "product" "get_product" [("product_id", 6)]) (Val.vNat 1) 60), 1⟩ := by
  have h := C7_cache_aside_decorator 60 "product" "get_product" "product_id"
    (fun _ => Except.ok (Val.vNat 1)) [("product_id", 5)] [("db", 0), ("credentials", 1)]
    [] (Val.vNat 1) (Val.vNat 1) 5 6
  exact ⟨h.1 (by decide), (h.2.1 rfl rfl).1, (h.2.1 rfl rfl).2,
    (h.2.2 (by decide) (by decide)).1, (h.2.2 (by decide) (by decide)).2 rfl rfl⟩

/-- Claim C10: when the wrapped function of a `cache_response`-decorated
handler raises (for example `get_product`'s `404 "Product not found"`), the
decorator's `except Exception` branch invokes the wrapped function a SECOND
time, and only then does the failure propagate: the body runs exactly twice
per request, side effects included, and the cache is left unchanged.  Stated
for any client state that yields a cache miss (a healthy client without the
key, an absent client, or a raising client — `get_cache` returns `None` in
each case). -/
theorem C10_failing_handler_runs_twice (expire : Nat) (kp fn : String)
    (f : KwArgs → Except PyExc Val) (kwargs : KwArgs) (c : CacheClient) (e : PyExc) :
    get_cache c (cacheKeyFor kp fn kwargs) = none →
    f kwargs = Except.error e →
    cache_response expire kp fn f kwargs c = ⟨Except.error e, c, 2⟩ := by
  intro hmiss herr
  cases c with
  | noClient =>
    unfold cache_response
    simp [herr]
  | client up st =>
    unfold cache_response
    simp [hmiss, herr]

/-- Witness for `C10_failing_handler_runs_twice`: `get_product` on a missing
product id raises `404 "Product not found"`; through the decorator with an
empty store the 404 propagates after exactly two executions. -/
theorem C10_failing_handler_runs_twice_witness :
    cache_response 3600 "product" "get_product"
        (fun _ => Except.error (PyExc.httpExc 404 "Product not found"))
        [("product_id", 9)] (CacheClient.client true [])
      = ⟨Except.error (PyExc.httpExc 404 "Product not found"),
         CacheClient.client true [], 2⟩ :=
  C10_failing_handler_runs_twice 3600 "product" "get_product"
    (fun _ => Except.error (PyExc.httpExc 404 "Product not found"))
    [("product_id", 9)] (CacheClient.client true [])
    (PyExc.httpExc 404 "Product not found") rfl rfl

/-- Claim C8: the claim says correct credentials yield HTTP 200 with a body
carrying `access_token`, `refresh_token` and `token_type "bearer"`, and that
wrong-password and nonexistent-identifier attempts yield the identical 401.
The 401 half holds exactly as claimed: both failures are the LITERALLY
identical `401 "Incorrect email or password"` — no account-existence leak —
and the handler body does build exactly the claimed three-field bearer dict
for correct credentials.  But that success can never reach the client: the
route's own declared `response_model=Token` (`schemas/auth.py` lines 8–12)
REQUIRES `odoo_uid`, which the handler never supplies, so response
validation fails and the served route answers with the unhandled
`ResponseValidationError` (framework 500), not 200.  Quantified over every
password verifier `vp` (`verify_password` lives in the missing
`app/core/security.py` and is modelled from the spec as an abstract
password-against-stored-hash check). -/
theorem C8_login_identical_401s_but_success_500s (db : List UserRec)
    (vp : String → String → Bool) (now ttlA ttlR : Nat)
    (e1 pw1 e2 pw2 pw3 : String) (u : UserRec) :
    (findUserByEmail db e1 = some u → vp pw1 u.hashed_password = false →
        findUserByEmail db e2 = none →
        login_route db e1 pw1 vp now ttlA ttlR
          = Except.error (PyExc.httpExc 401 "Incorrect email or password")
        ∧ login_route db e2 pw2 vp now ttlA ttlR
          = Except.error (PyExc.httpExc 401 "Incorrect email or password")
        ∧ login_route db e1 pw1 vp now ttlA ttlR
          = login_route db e2 pw2 vp now ttlA ttlR)
    ∧ (findUserByEmail db e1 = some u → vp pw3 u.hashed_password = true →
        login_endpoint db e1 pw3 vp now ttlA ttlR
          = Except.ok ⟨create_access_token u.id now ttlA,
              create_refresh_token u.id now ttlR, "bearer", none⟩
        ∧ (create_access_token u.id now ttlA).sub = some u.id
        ∧ (create_refresh_token u.id now ttlR).sub = some u.id
        ∧ (create_access_token u.id now ttlA).kind = TokenKind.access
        ∧ (create_refresh_token u.id now ttlR).kind = TokenKind.refresh
        ∧ login_route db e1 pw3 vp now ttlA ttlR = Except.error PyExc.otherExc) := by
  constructor
  · intro hfind hvp hnone
    have hwrong : login_endpoint db e1 pw1 vp now ttlA ttlR
        = Except.error (PyExc.httpExc 401 "Incorrect email or password") := by
      unfold login_endpoint
      rw [hfind]
      simp [hvp]
    have hmissing : login_endpoint db e2 pw2 vp now ttlA ttlR
        = Except.error (PyExc.httpExc 401 "Incorrect email or password") := by
      unfold login_endpoint
      rw [hnone]
    have hwrongR : login_route db e1 pw1 vp now ttlA ttlR
        = Except.error (PyExc.httpExc 401 "Incorrect email or password") := by
      unfold login_route
      rw [hwrong]
    have hmissingR : login_route db e2 pw2 vp now ttlA ttlR
        = Except.error (PyExc.httpExc 401 "Incorrect email or password") := by
      unfold login_route
      rw [hmissing]
    exact ⟨hwrongR, hmissingR, hwrongR.trans hmissingR.symm⟩
  · intro hfind hvp
    have hend : login_endpoint db e1 pw3 vp now ttlA ttlR
        = Except.ok ⟨create_access_token u.id now ttlA,
            create_refresh_token u.id now ttlR, "bearer", none⟩ := by
      unfold login_endpoint
      rw [hfind]
      simp [hvp]
    refine ⟨hend, rfl, rfl, rfl, rfl, ?_⟩
    unfold login_route
    rw [hend]
    rfl

/-- Witness for `C8_login_identical_401s_but_success_500s`: a one-user table,
the verifier being equality with the stored string; wrong password and
unknown email give the identical 401 through the served route, and the right
password has the handler build the bearer pair while the served route fails
with the unhandled response-validation error. -/
theorem C8_login_identical_401s_but_success_500s_witness :
    login_route [⟨3, "ann@x", "secret", true, false⟩] "ann@x" "wrong"
        (fun p h => p == h) 50 1800 7200
      = Except.error (PyExc.httpExc 401 "Incorrect email or password")
    ∧ login_route [⟨3, "ann@x", "secret", true, false⟩] "bob@x" "whatever"
        (fun p h => p == h) 50 1800 7200
      = Except.error (PyExc.httpExc 401 "Incorrect email or password")
    ∧ login_endpoint [⟨3, "ann@x", "secret", true, false⟩] "ann@x" "secret"
        (fun p h => p == h) 50 1800 7200
      = Except.ok ⟨create_access_token 3 50 1800, create_refresh_token 3 50 7200,
          "bearer", none⟩
    ∧ login_route [⟨3, "ann@x", "secret", true, false⟩] "ann@x" "secret"
        (fun p h => p == h) 50 1800 7200
      = Except.error PyExc.otherExc := by
  have h := C8_login_identical_401s_but_success_500s [⟨3, "ann@x", "secret", true, false⟩]
    (fun p h => p == h) 50 1800 7200 "ann@x" "wrong" "bob@x" "whatever" "secret"
    ⟨3, "ann@x", "secret", true, false⟩
  exact ⟨(h.1 rfl rfl rfl).1, (h.1 rfl rfl rfl).2.1, (h.2 rfl rfl).1,
    (h.2 rfl rfl).2.2.2.2.2⟩

/-- Claim C9 counterexample: the claim says a self-or-elevated guarded user
operation allows access whenever the principal's id equals the target.  But
the user router is mounted behind `Depends(get_current_superuser)`
(api.py, "Admin routes (require superuser)"), so a non-superuser principal
reading or updating THEIR OWN record (id 2, target 2) is denied
`403 "Superuser privileges required"` before either handler guard runs. -/
theorem C9_nonsuper_self_access_denied :
    get_user_route ⟨some 2, none, none, none, none, none, false⟩ 2
        [⟨2, "u2@x", "h", true, false⟩]
      = Except.error (PyExc.httpExc 403 "Superuser privileges required")
    ∧ update_user_route ⟨some 2, none, none, none, none, none, false⟩ 2
        [⟨2, "u2@x", "h", true, false⟩] (fun u => u)
      = Except.error (PyExc.httpExc 403 "Superuser privileges required")
    ∧ (⟨some 2, none, none, none, none, none, false⟩ : UserInfo).id = some 2
    ∧ (⟨some 2, none, none, none, none, none, false⟩ : UserInfo).is_superuser = false := by
  decide

/-- Claim C9 amended: as mounted, both user operations are superuser-only.  A
principal without the superuser flag is denied
`403 "Superuser privileges required"` regardless of the target — including
itself — and a superuser principal passes the router gate and both handler
guards (the superuser flag is the first disjunct of `get_user`'s admin
OR-chain and of `update_user`'s own check), reaching the 404-or-record
outcome regardless of the target. -/
theorem C9_user_routes_amended (cu : UserInfo) (target : Nat) (db : List UserRec)
    (upd : UserRec → UserRec) :
    (cu.is_superuser = false →
        get_user_route cu target db
          = Except.error (PyExc.httpExc 403 "Superuser privileges required")
        ∧ update_user_route cu target db upd
          = Except.error (PyExc.httpExc 403 "Superuser privileges required"))
    ∧ (cu.is_superuser = true →
        get_user_route cu target db
          = (match findUserById db target with
             | none => Except.error (PyExc.httpExc 404 "User not found")
             | some u => Except.ok u)
        ∧ update_user_route cu target db upd
          = (match findUserById db target with
             | none => Except.error (PyExc.httpExc 404 "User not found")
             | some u => Except.ok (upd u))) := by
  constructor
  · intro h
    constructor
    · simp [get_user_route, get_current_superuser, h]
    · simp [update_user_route, get_current_superuser, h]
  · intro h
    constructor
    · simp [get_user_route, get_current_superuser, h, get_user_endpoint, is_admin_signals]
    · simp [update_user_route, get_current_superuser, h, update_user_endpoint]

/-- Witness for `C9_user_routes_amended`: the non-superuser self principal is
denied; a superuser principal with id 1 reads and updates user 2. -/
theorem C9_user_routes_amended_witness :
    get_user_route ⟨some 9, none, none, none, none, none, false⟩ 9 []
      = Except.error (PyExc.httpExc 403 "Superuser privileges required")
    ∧ get_user_route ⟨some 1, none, none, none, none, none, true⟩ 2
        [⟨2, "u2@x", "h", true, false⟩]
      = Except.ok ⟨2, "u2@x", "h", true, false⟩
    ∧ update_user_route ⟨some 1, none, none, none, none, none, true⟩ 2
        [⟨2, "u2@x", "h", true, false⟩] (fun u => ⟨u.id, u.email, "h2", u.is_active, u.is_superuser⟩)
      = Except.ok ⟨2, "u2@x", "h2", true, false⟩ := by
  have h1 := (C9_user_routes_amended ⟨some 9, none, none, none, none, none, false⟩ 9 []
    (fun u => u)).1 rfl
  have h2 := (C9_user_routes_amended ⟨some 1, none, none, none, none, none, true⟩ 2
    [⟨2, "u2@x", "h", true, false⟩]
    (fun u => ⟨u.id, u.email, "h2", u.is_active, u.is_superuser⟩)).2 rfl
  exact ⟨h1.1, by rw [h2.1]; decide, by rw [h2.2]; decide⟩
